import Mathlib

/-!
Shallow embedding of src/tiktoken-node/src/lib.rs: the actor-based dispatch
layer over the external tiktoken encoding engine.

Modelling conventions:
- The tiktoken engine (crate tiktoken, an external collaborator) is abstract:
  an Encoding structure whose fields are the five engine operations the layer
  consumes. Token ids and byte values are Nat; usize-to-i32 and usize-to-u32
  casts are explicit (usizeToI32, usizeToU32).
- anyhow errors are modelled as the String their to_string() produces at the
  facade boundary; .context("...") replaces the displayed message with the
  context string, which is what Error::from_reason(e.to_string()) surfaces.
- The one-shot reply channel is modelled by the return value of the handler;
  the facade recv outcome is an Option: none means the channel closed with no
  value delivered (tokio oneshot RecvError), some r means the worker reply r
  was delivered.
- once_cell Lazy is a slot of type Option alpha forced by lazyForce.
- Rust Result unwrap is resultUnwrap : Except e a -> Option a, where none is
  a panic.
-/

namespace TiktokenNode

/-- Public selector enum SupportedEncoding from lib.rs (closed, four values). -/
inductive SupportedEncoding
  | Cl100k
  | Llama3
  | O200k
  | Codestral
deriving DecidableEq, Repr

/-- Public action enum SpecialTokenAction from lib.rs. -/
inductive SpecialTokenAction
  | Forbidden
  | NormalText
  | Special
deriving DecidableEq, Repr

/-- Engine-side action enum tiktoken SpecialTokenAction. -/
inductive TkSpecialTokenAction
  | Forbidden
  | NormalText
  | Special
deriving DecidableEq, Repr

/-- SpecialTokenAction.to_tiktoken from lib.rs. -/
def SpecialTokenAction.to_tiktoken : SpecialTokenAction → TkSpecialTokenAction
  | .Forbidden => .Forbidden
  | .NormalText => .NormalText
  | .Special => .Special

/-- Engine-side tiktoken SpecialTokenHandling: a default action plus
per-marker overrides. Overrides are a list of key-action pairs; the empty
map of the Default instance is the empty list. -/
structure SpecialTokenHandling where
  dflt : TkSpecialTokenAction
  overrides : List (String × TkSpecialTokenAction)
deriving DecidableEq, Repr

/-- Rust usize as u32: truncation to 32 bits. -/
def usizeToU32 (n : Nat) : Nat := n % 2 ^ 32

/-- Rust usize as i32: truncation to 32 bits, reinterpreted two-complement
signed. -/
def usizeToI32 (n : Nat) : Int :=
  if n % 2 ^ 32 < 2 ^ 31 then (n % 2 ^ 32 : Nat) else (n % 2 ^ 32 : Nat) - 2 ^ 32

/-- Abstract tiktoken Encoding capability: the five engine operations the
dispatch layer consumes (spec section 6). encode may fail with a domain
error; encode_single_token_bytes returns some token id exactly when the
byte sequence maps to one vocabulary entry, none otherwise (the handler
discards the engine error value); decode is total; decode_single_token_bytes
fails for an id out of vocabulary range; the fast estimate is total and
returns a usize (a Nat here). -/
structure Encoding where
  encode : String → SpecialTokenHandling → Except String (List Nat)
  encode_single_token_bytes : List Nat → Option Nat
  decode : List Nat → String
  decode_single_token_bytes : Nat → Except String (List Nat)
  estimate_num_tokens_no_special_tokens_fast : String → Bool → Nat

/-- The Encodings table from lib.rs: four engine handles. -/
structure Encodings where
  cl100k_encoding : Encoding
  llama3_encoding : Encoding
  o200k_encoding : Encoding
  codestral_encoding : Encoding

/-- TokenizerActor.get_encoding from lib.rs lines 91 to 98. -/
def TokenizerActor.get_encoding (encodings : Encodings) :
    SupportedEncoding → Encoding
  | .Cl100k => encodings.cl100k_encoding
  | .Llama3 => encodings.llama3_encoding
  | .O200k => encodings.o200k_encoding
  | .Codestral => encodings.codestral_encoding

/-- The TokenizerMessage tagged union from lib.rs: six variants, each
carrying its payload and selector; the reply channel is modelled by the
handler return value. -/
inductive TokenizerMessage
  | ExactNumTokens (text : String) (encoding : SupportedEncoding)
      (special_token_handling : SpecialTokenHandling)
  | EncodeTokens (text : String) (encoding : SupportedEncoding)
      (special_token_handling : SpecialTokenHandling)
  | EncodeSingleToken (bytes : List Nat) (encoding : SupportedEncoding)
  | DecodeTokens (tokens : List Nat) (encoding : SupportedEncoding)
  | DecodeTokenBytes (token : Nat) (encoding : SupportedEncoding)
  | ApproximateNumTokens (text : String) (encoding : SupportedEncoding)
      (replace_spaces_with_lower_one_eighth_block : Bool)

/-- The value a worker sends on the reply channel, one payload type per
message variant. -/
inductive TokenizerReply
  | numTokens (r : Except String Int)
  | tokens (r : Except String (List Nat))
  | singleToken (r : Except String Nat)
  | decodedText (r : Except String String)
  | tokenBytes (r : Except String (List Nat))
deriving Repr

/-- TokenizerActor.handle_message from lib.rs lines 100 to 172: dispatch by
variant against the shared table, producing exactly one reply per message. -/
def TokenizerActor.handle_message (encodings : Encodings) :
    TokenizerMessage → TokenizerReply
  | .ExactNumTokens text encoding special_token_handling =>
      match (TokenizerActor.get_encoding encodings encoding).encode text
          special_token_handling with
      | .ok t => .numTokens (.ok (usizeToI32 t.length))
      | .error _ => .numTokens (.error "Error encoding string")
  | .EncodeTokens text encoding special_token_handling =>
      match (TokenizerActor.get_encoding encodings encoding).encode text
          special_token_handling with
      | .ok t => .tokens (.ok (t.map usizeToU32))
      | .error _ => .tokens (.error "Error encoding string")
  | .EncodeSingleToken bytes encoding =>
      match (TokenizerActor.get_encoding encodings
          encoding).encode_single_token_bytes bytes with
      | some t => .singleToken (.ok (usizeToU32 t))
      | none => .singleToken (.error "Token not recognized")
  | .DecodeTokens tokens encoding =>
      .decodedText (.ok ((TokenizerActor.get_encoding encodings
        encoding).decode tokens))
  | .DecodeTokenBytes token encoding =>
      match (TokenizerActor.get_encoding encodings
          encoding).decode_single_token_bytes token with
      | .ok b => .tokenBytes (.ok b)
      | .error e => .tokenBytes (.error e)
  | .ApproximateNumTokens text encoding flag =>
      .numTokens (.ok (usizeToI32
        ((TokenizerActor.get_encoding encodings
          encoding).estimate_num_tokens_no_special_tokens_fast text flag)))

/-! Facade layer. Each async facade operation builds a message, enqueues it,
and awaits the reply on its one-shot channel. Assuming the message is
dequeued, the delivered value is the worker reply; the recv outcome is
modelled as an Option of the reply, none meaning the channel closed with no
value. -/

/-- Display string of the tokio oneshot RecvError, the e interpolated by the
facade into its dispatch-failure message. -/
def recvErrorMsg : String := "channel closed"

/-- The facade recv arm shared by every async operation in lib.rs, for
example lines 243 to 246: a delivered worker result is mapped back with its
error message verbatim, a closed channel is turned into the synthesized
dispatch-failure error. -/
def facadeRecv {α : Type} (recv : Option (Except String α)) : Except String α :=
  match recv with
  | some result => result
  | none => .error ("Actor task has been killed: " ++ recvErrorMsg)

/-- The SpecialTokenHandling built by the no-specials facades, lib.rs lines
233 to 238: default NormalText, overrides from Default, that is empty. -/
def noSpecialsHandling : SpecialTokenHandling :=
  { dflt := .NormalText, overrides := [] }

/-- The SpecialTokenHandling built by the policy-taking facades, lib.rs
lines 262 to 267: caller default converted with to_tiktoken, each override
pair converted likewise. -/
def callerHandling (special_token_default_action : SpecialTokenAction)
    (special_token_overrides : List (String × SpecialTokenAction)) :
    SpecialTokenHandling :=
  { dflt := special_token_default_action.to_tiktoken,
    overrides := special_token_overrides.map
      (fun kv => (kv.1, kv.2.to_tiktoken)) }

/-- Message built by Tokenizer.exact_num_tokens_no_special_tokens, lib.rs
lines 228 to 239. -/
def Tokenizer.exact_num_tokens_no_special_tokens_msg (text : String)
    (encoding : SupportedEncoding) : TokenizerMessage :=
  .ExactNumTokens text encoding noSpecialsHandling

/-- Message built by Tokenizer.exact_num_tokens, lib.rs lines 257 to 268. -/
def Tokenizer.exact_num_tokens_msg (text : String)
    (encoding : SupportedEncoding)
    (special_token_default_action : SpecialTokenAction)
    (special_token_overrides : List (String × SpecialTokenAction)) :
    TokenizerMessage :=
  .ExactNumTokens text encoding
    (callerHandling special_token_default_action special_token_overrides)

/-- End-to-end result of Tokenizer.exact_num_tokens_no_special_tokens when
the message is handled by a worker over the given table and the reply is
delivered. -/
def Tokenizer.exact_num_tokens_no_special_tokens (encodings : Encodings)
    (text : String) (encoding : SupportedEncoding) : TokenizerReply :=
  TokenizerActor.handle_message encodings
    (Tokenizer.exact_num_tokens_no_special_tokens_msg text encoding)

/-- End-to-end result of Tokenizer.exact_num_tokens under the same delivery
assumption. -/
def Tokenizer.exact_num_tokens (encodings : Encodings) (text : String)
    (encoding : SupportedEncoding)
    (special_token_default_action : SpecialTokenAction)
    (special_token_overrides : List (String × SpecialTokenAction)) :
    TokenizerReply :=
  TokenizerActor.handle_message encodings
    (Tokenizer.exact_num_tokens_msg text encoding
      special_token_default_action special_token_overrides)

/-- The SyncTokenizer struct from lib.rs: a handle on the shared table. -/
structure SyncTokenizer where
  encodings : Encodings

/-- SyncTokenizer.get_encoding from lib.rs lines 424 to 431. -/
def SyncTokenizer.get_encoding (self : SyncTokenizer) :
    SupportedEncoding → Encoding
  | .Cl100k => self.encodings.cl100k_encoding
  | .Llama3 => self.encodings.llama3_encoding
  | .O200k => self.encodings.o200k_encoding
  | .Codestral => self.encodings.codestral_encoding

/-- SyncTokenizer.approx_num_tokens from lib.rs lines 419 to 422: direct
synchronous call of the fast estimate with the narrow-space flag fixed to
false, cast to i32, always Ok. -/
def SyncTokenizer.approx_num_tokens (self : SyncTokenizer) (text : String)
    (encoding : SupportedEncoding) : Except String Int :=
  .ok (usizeToI32
    ((self.get_encoding encoding).estimate_num_tokens_no_special_tokens_fast
      text false))

/-! Lazily initialized globals. once_cell Lazy is modelled as a slot of type
Option alpha: lazyForce runs the initializer only when the slot is empty and
stores the produced value, errors included, so a construction failure is a
stored Except.error replayed to every later force. -/

/-- Forcing a once_cell Lazy slot: returns the value and the updated slot. -/
def lazyForce {α : Type} (init : Unit → α) : Option α → α × Option α
  | some v => (v, some v)
  | none => (init (), some (init ()))

/-- The external EncodingFactory calls consumed by the ENCODINGS initializer,
each either a built Encoding or an EncodingFactoryError (modelled as its
message string). -/
structure EncodingFactory where
  cl100k_im : Except String Encoding
  llama3 : Except String Encoding
  o200k_im : Except String Encoding
  codestral : Except String Encoding

/-- The ENCODINGS initializer body from lib.rs lines 20 to 27: build the four
engines in order, the first factory error short-circuits out as the stored
Err. -/
def buildEncodings (factory : EncodingFactory) : Except String Encodings := do
  let c ← factory.cl100k_im
  let l ← factory.llama3
  let o ← factory.o200k_im
  let cs ← factory.codestral
  pure { cl100k_encoding := c, llama3_encoding := l, o200k_encoding := o,
         codestral_encoding := cs }

/-- Rust Result unwrap: some on Ok, none meaning a panic on Err. -/
def resultUnwrap {ε α : Type} : Except ε α → Option α
  | .ok a => some a
  | .error _ => none

/-- Tokenizer.new from lib.rs lines 209 to 220, viewed through the table the
spawned actors receive: ENCODINGS.clone().unwrap(). The unwrap panics (none)
when the cached construction result is an error; otherwise each actor holds
the shared table. -/
def Tokenizer.new (encodingsResult : Except String Encodings) :
    Option Encodings :=
  resultUnwrap encodingsResult

/-- SyncTokenizer.new from lib.rs lines 414 to 417: also
ENCODINGS.clone().unwrap(), panicking (none) on a cached construction
error. -/
def SyncTokenizer.new (encodingsResult : Except String Encodings) :
    Option SyncTokenizer :=
  (resultUnwrap encodingsResult).map (fun e => { encodings := e })

/-! Concrete engine instances used to evaluate the dispatch layer on
explicit inputs. They are stand-ins for the external tiktoken engines,
which are out of scope; only the dispatch-layer code under test is fixed. -/

/-- A small concrete engine: encode yields one token per character, the only
single-token byte sequence is [104, 105], decode is constant, the fast
estimate is the character count plus one when the narrow-space flag is
set. -/
def toyEncoding : Encoding where
  encode := fun text _ => .ok (List.replicate text.length 0)
  encode_single_token_bytes := fun bytes =>
    if bytes = [104, 105] then some 7 else none
  decode := fun _ => "hi"
  decode_single_token_bytes := fun token =>
    if token = 7 then .ok [104, 105] else .error "token out of range"
  estimate_num_tokens_no_special_tokens_fast := fun text flag =>
    text.length + (if flag then 1 else 0)

/-- A table holding the toy engine in all four slots. -/
def toyTable : Encodings where
  cl100k_encoding := toyEncoding
  llama3_encoding := toyEncoding
  o200k_encoding := toyEncoding
  codestral_encoding := toyEncoding

/-- A concrete engine whose encode always reports a domain error. -/
def failEncoding : Encoding where
  encode := fun _ _ => .error "forbidden special token"
  encode_single_token_bytes := fun _ => none
  decode := fun _ => ""
  decode_single_token_bytes := fun _ => .error "token out of range"
  estimate_num_tokens_no_special_tokens_fast := fun _ _ => 0

/-- A table holding the failing engine in all four slots. -/
def failTable : Encodings where
  cl100k_encoding := failEncoding
  llama3_encoding := failEncoding
  o200k_encoding := failEncoding
  codestral_encoding := failEncoding

/-- A concrete engine whose encode returns a token sequence of length 2 to
the power 31, the smallest length at which the i32 cast of the count goes
negative. -/
def bigListEncoding : Encoding where
  encode := fun _ _ => .ok (List.replicate (2 ^ 31) 0)
  encode_single_token_bytes := fun _ => none
  decode := fun _ => ""
  decode_single_token_bytes := fun _ => .error "token out of range"
  estimate_num_tokens_no_special_tokens_fast := fun _ _ => 0

/-- A table holding the big-list engine in all four slots. -/
def bigListTable : Encodings where
  cl100k_encoding := bigListEncoding
  llama3_encoding := bigListEncoding
  o200k_encoding := bigListEncoding
  codestral_encoding := bigListEncoding

/-- A concrete engine whose fast estimate is 2 to the power 31, at which the
i32 cast of the estimate goes negative. -/
def hugeEstimateEncoding : Encoding where
  encode := fun _ _ => .ok []
  encode_single_token_bytes := fun _ => none
  decode := fun _ => ""
  decode_single_token_bytes := fun _ => .error "token out of range"
  estimate_num_tokens_no_special_tokens_fast := fun _ _ => 2 ^ 31

/-- A table holding the huge-estimate engine in all four slots. -/
def hugeEstimateTable : Encodings where
  cl100k_encoding := hugeEstimateEncoding
  llama3_encoding := hugeEstimateEncoding
  o200k_encoding := hugeEstimateEncoding
  codestral_encoding := hugeEstimateEncoding

/-! Claim theorems. -/

/-- C9: encoding selection is total and panic-free: for every value of the
four-value SupportedEncoding enumeration, both TokenizerActor.get_encoding
and SyncTokenizer.get_encoding return the corresponding Encoding of the
table, with no error or panic branch. -/
theorem C9_get_encoding_total (encodings : Encodings) (self : SyncTokenizer) :
    TokenizerActor.get_encoding encodings .Cl100k = encodings.cl100k_encoding ∧
    TokenizerActor.get_encoding encodings .Llama3 = encodings.llama3_encoding ∧
    TokenizerActor.get_encoding encodings .O200k = encodings.o200k_encoding ∧
    TokenizerActor.get_encoding encodings .Codestral
      = encodings.codestral_encoding ∧
    SyncTokenizer.get_encoding self .Cl100k
      = self.encodings.cl100k_encoding ∧
    SyncTokenizer.get_encoding self .Llama3
      = self.encodings.llama3_encoding ∧
    SyncTokenizer.get_encoding self .O200k
      = self.encodings.o200k_encoding ∧
    SyncTokenizer.get_encoding self .Codestral
      = self.encodings.codestral_encoding :=
  ⟨rfl, rfl, rfl, rfl, rfl, rfl, rfl, rfl⟩

/-- C4: for every sequence of token ids and every selector, the worker
handling of the DecodeTokens variant always sends a success reply, namely
the engine decode output, with no domain-error branch. -/
theorem C4_decode_always_ok (encodings : Encodings) (tokens : List Nat)
    (encoding : SupportedEncoding) :
    TokenizerActor.handle_message encodings (.DecodeTokens tokens encoding) =
      .decodedText (.ok
        ((TokenizerActor.get_encoding encodings encoding).decode tokens)) :=
  rfl

/-- C7: the synchronous approximate-count operation returns the same value
as the asynchronous approximate-count handler called with the narrow-space
flag fixed to false, both invoking the same fast-estimate function of the
same shared table entry. -/
theorem C7_sync_approx_matches_async (self : SyncTokenizer) (text : String)
    (encoding : SupportedEncoding) :
    TokenizerActor.handle_message self.encodings
        (.ApproximateNumTokens text encoding false) =
      .numTokens (SyncTokenizer.approx_num_tokens self text encoding) ∧
    SyncTokenizer.get_encoding self encoding
      = TokenizerActor.get_encoding self.encodings encoding := by
  cases encoding <;> exact ⟨rfl, rfl⟩

/-- C6: the no-specials exact-count facade is exactly the general
exact-count facade specialized to default action NormalText and an empty
override map: it builds an identical message and hence produces an
identical reply over every table. -/
theorem C6_no_specials_is_specialization (encodings : Encodings)
    (text : String) (encoding : SupportedEncoding) :
    Tokenizer.exact_num_tokens_no_special_tokens_msg text encoding =
      Tokenizer.exact_num_tokens_msg text encoding .NormalText [] ∧
    Tokenizer.exact_num_tokens_no_special_tokens encodings text encoding =
      Tokenizer.exact_num_tokens encodings text encoding .NormalText [] :=
  ⟨rfl, rfl⟩

/-- C3: the EncodeSingleToken handler succeeds with a token id exactly when
the engine maps the byte sequence to one vocabulary entry, and on any
non-matching input fails with the error Token not recognized; the message
variant carries no special-token policy, so the handler takes none. -/
theorem C3_encode_single_token_lookup (encodings : Encodings)
    (bytes : List Nat) (encoding : SupportedEncoding) :
    (∀ t, (TokenizerActor.get_encoding
          encodings encoding).encode_single_token_bytes bytes = some t →
      TokenizerActor.handle_message encodings
          (.EncodeSingleToken bytes encoding) =
        .singleToken (.ok (usizeToU32 t))) ∧
    ((TokenizerActor.get_encoding
          encodings encoding).encode_single_token_bytes bytes = none →
      TokenizerActor.handle_message encodings
          (.EncodeSingleToken bytes encoding) =
        .singleToken (.error "Token not recognized")) := by
  constructor
  · intro t ht
    simp [TokenizerActor.handle_message, ht]
  · intro hn
    simp [TokenizerActor.handle_message, hn]

/-- C3 witness: on the toy table, the byte sequence [104, 105] is a single
vocabulary entry and is returned as token 7, while [0] is not recognized. -/
theorem C3_encode_single_token_lookup_witness :
    TokenizerActor.handle_message toyTable
        (.EncodeSingleToken [104, 105] .Cl100k) = .singleToken (.ok 7) ∧
    TokenizerActor.handle_message toyTable
        (.EncodeSingleToken [0] .Cl100k) =
      .singleToken (.error "Token not recognized") := by
  constructor
  · exact (C3_encode_single_token_lookup toyTable [104, 105] .Cl100k).1 7 rfl
  · exact (C3_encode_single_token_lookup toyTable [0] .Cl100k).2 rfl

/-- C5: the facade returns the dispatch-failure error, whose message begins
with Actor task has been killed, exactly when the one-shot recv outcome is
none (channel closed with no value); a delivered worker result is carried
back verbatim; and the worker-produced domain error of the exact-count
handler is the fixed string Error encoding string, which is not an
extension of the dispatch prefix, so the two error kinds stay
distinguishable. -/
theorem C5_dispatch_failure_only_in_facade (recv : Option (Except String Int))
    (r : Except String Int) (encodings : Encodings) (text : String)
    (encoding : SupportedEncoding) (h : SpecialTokenHandling) (e : String) :
    (recv = none →
      facadeRecv recv =
        .error ("Actor task has been killed: " ++ recvErrorMsg)) ∧
    (recv = some r → facadeRecv recv = r) ∧
    (TokenizerActor.handle_message encodings (.ExactNumTokens text encoding h)
        = .numTokens (.error e) →
      e = "Error encoding string" ∧
      ∀ rest : String, e ≠ "Actor task has been killed" ++ rest) := by
  refine ⟨fun hn => by simp [facadeRecv, hn],
    fun hs => by simp [facadeRecv, hs], fun hw => ?_⟩
  have he : e = "Error encoding string" := by
    cases hres : (TokenizerActor.get_encoding encodings encoding).encode
        text h with
    | ok t => simp [TokenizerActor.handle_message, hres] at hw
    | error msg =>
      simp [TokenizerActor.handle_message, hres] at hw
      exact hw.symm
  refine ⟨he, fun rest hcontra => ?_⟩
  have hlen := congrArg String.length hcontra
  rw [he] at hlen
  rw [String.length_append] at hlen
  have h1 : ("Error encoding string").length = 21 := rfl
  have h2 : ("Actor task has been killed").length = 26 := rfl
  omega

/-- C5 witness: with a closed channel the facade synthesizes the
dispatch-failure message; a delivered reply of Ok 2 comes back verbatim;
the failing table produces the domain error Error encoding string, distinct
from every extension of the dispatch prefix. -/
theorem C5_dispatch_failure_only_in_facade_witness :
    facadeRecv (none : Option (Except String Int)) =
      .error ("Actor task has been killed: " ++ recvErrorMsg) ∧
    facadeRecv (some (Except.ok (2 : Int))) = .ok 2 ∧
    "Error encoding string" ≠ "Actor task has been killed" ++ ": x" := by
  refine ⟨?_, ?_, ?_⟩
  · exact (C5_dispatch_failure_only_in_facade none (.ok 2) toyTable "hi"
      .Cl100k noSpecialsHandling "Error encoding string").1 rfl
  · exact (C5_dispatch_failure_only_in_facade (some (.ok 2)) (.ok 2) toyTable
      "hi" .Cl100k noSpecialsHandling "Error encoding string").2.1 rfl
  · exact ((C5_dispatch_failure_only_in_facade none (.ok 2) failTable "hi"
      .Cl100k noSpecialsHandling "Error encoding string").2.2 rfl).2 ": x"

/-- C2 counterexample: over an engine returning a token sequence of length
2 to the power 31, the exact-count handler returns the negative i32 value
minus 2 to the power 31 while the encode handler returns the full sequence,
whose length is the positive 2 to the power 31, so the count does not equal
the length of the encoded sequence. -/
theorem C2_count_vs_encode_counterexample :
    TokenizerActor.handle_message bigListTable
        (.ExactNumTokens "" .Cl100k noSpecialsHandling) =
      .numTokens (.ok (-(2 ^ 31))) ∧
    TokenizerActor.handle_message bigListTable
        (.EncodeTokens "" .Cl100k noSpecialsHandling) =
      .tokens (.ok (List.replicate (2 ^ 31) 0)) ∧
    (List.replicate (2 ^ 31) (0 : Nat)).length = 2 ^ 31 ∧
    (-(2 ^ 31) : Int) ≠ ((2 ^ 31 : Nat) : Int) := by
  refine ⟨?_, ?_, by rw [List.length_replicate], by norm_num⟩
  · show TokenizerReply.numTokens
        (.ok (usizeToI32 (List.replicate (2 ^ 31) (0 : Nat)).length)) = _
    rw [List.length_replicate]
    norm_num [usizeToI32]
  · show TokenizerReply.tokens
        (.ok ((List.replicate (2 ^ 31) (0 : Nat)).map usizeToU32)) = _
    rw [List.map_replicate]
    norm_num [usizeToU32]

/-- C2 amended: the exact-count handler returns the i32 cast of the length
of the very token sequence the encode handler returns (the u32 cast of the
tokens preserves length), so the two agree exactly whenever that length is
below 2 to the power 31; when the underlying encode fails, both handlers
report the domain error Error encoding string. -/
theorem C2_count_is_cast_of_encode_length (encodings : Encodings)
    (text : String) (encoding : SupportedEncoding)
    (h : SpecialTokenHandling) :
    (∀ t, (TokenizerActor.get_encoding encodings encoding).encode text h
        = .ok t →
      TokenizerActor.handle_message encodings
          (.ExactNumTokens text encoding h) =
        .numTokens (.ok (usizeToI32 t.length)) ∧
      TokenizerActor.handle_message encodings
          (.EncodeTokens text encoding h) =
        .tokens (.ok (t.map usizeToU32)) ∧
      (t.map usizeToU32).length = t.length ∧
      (t.length < 2 ^ 31 → usizeToI32 t.length = t.length)) ∧
    (∀ e, (TokenizerActor.get_encoding encodings encoding).encode text h
        = .error e →
      TokenizerActor.handle_message encodings
          (.ExactNumTokens text encoding h) =
        .numTokens (.error "Error encoding string") ∧
      TokenizerActor.handle_message encodings
          (.EncodeTokens text encoding h) =
        .tokens (.error "Error encoding string")) := by
  constructor
  · intro t ht
    refine ⟨by simp [TokenizerActor.handle_message, ht],
      by simp [TokenizerActor.handle_message, ht], by simp, fun hlt => ?_⟩
    have hmod : t.length % 2 ^ 32 = t.length :=
      Nat.mod_eq_of_lt (lt_trans hlt (by norm_num))
    simp only [usizeToI32, hmod]
    rw [if_pos hlt]
  · intro e he
    exact ⟨by simp [TokenizerActor.handle_message, he],
      by simp [TokenizerActor.handle_message, he]⟩

/-- C2 witness: on the toy table the text hi encodes to two tokens and the
exact count is 2, the length of the returned sequence; on the failing table
both handlers report Error encoding string. -/
theorem C2_count_is_cast_of_encode_length_witness :
    TokenizerActor.handle_message toyTable
        (.ExactNumTokens "hi" .Cl100k noSpecialsHandling) =
      .numTokens (.ok 2) ∧
    TokenizerActor.handle_message toyTable
        (.EncodeTokens "hi" .Cl100k noSpecialsHandling) =
      .tokens (.ok [0, 0]) ∧
    TokenizerActor.handle_message failTable
        (.ExactNumTokens "hi" .Cl100k noSpecialsHandling) =
      .numTokens (.error "Error encoding string") ∧
    TokenizerActor.handle_message failTable
        (.EncodeTokens "hi" .Cl100k noSpecialsHandling) =
      .tokens (.error "Error encoding string") := by
  obtain ⟨h1, h2, -, h4⟩ :=
    (C2_count_is_cast_of_encode_length toyTable "hi" .Cl100k
      noSpecialsHandling).1 (List.replicate "hi".length 0) rfl
  obtain ⟨h5, h6⟩ :=
    (C2_count_is_cast_of_encode_length failTable "hi" .Cl100k
      noSpecialsHandling).2 "forbidden special token" rfl
  refine ⟨?_, ?_, h5, h6⟩
  · exact h1.trans (by rfl)
  · exact h2.trans (by rfl)

/-- C8 counterexample: over an engine whose fast estimate is 2 to the power
31, the approximate-count handler and the synchronous facade both return
the negative value minus 2 to the power 31, so the result crossing the
interface is not a non-negative integer. -/
theorem C8_approx_nonneg_counterexample :
    TokenizerActor.handle_message hugeEstimateTable
        (.ApproximateNumTokens "" .Cl100k false) =
      .numTokens (.ok (-(2 ^ 31))) ∧
    SyncTokenizer.approx_num_tokens { encodings := hugeEstimateTable } ""
        .Cl100k = .ok (-(2 ^ 31)) ∧
    (-(2 ^ 31) : Int) < 0 := by
  refine ⟨?_, ?_, by norm_num⟩
  · show TokenizerReply.numTokens (.ok (usizeToI32 (2 ^ 31))) = _
    norm_num [usizeToI32]
  · show Except.ok (usizeToI32 (2 ^ 31)) = _
    norm_num [usizeToI32]

/-- C8 amended: the approximate count is a deterministic function of the
text and the narrow-space flag alone, given the table: the handler output
is exactly the i32 cast of the engine fast estimate, no special-token
policy is accepted or threaded through, and the result is non-negative
exactly as long as the estimate stays below 2 to the power 31 after
reduction modulo 2 to the power 32. -/
theorem C8_approx_deterministic_cast (encodings : Encodings) (text : String)
    (encoding : SupportedEncoding) (flag : Bool) :
    TokenizerActor.handle_message encodings
        (.ApproximateNumTokens text encoding flag) =
      .numTokens (.ok (usizeToI32
        ((TokenizerActor.get_encoding
          encodings encoding).estimate_num_tokens_no_special_tokens_fast
          text flag))) ∧
    ((TokenizerActor.get_encoding
          encodings encoding).estimate_num_tokens_no_special_tokens_fast
        text flag < 2 ^ 31 →
      0 ≤ usizeToI32
        ((TokenizerActor.get_encoding
          encodings encoding).estimate_num_tokens_no_special_tokens_fast
          text flag)) := by
  refine ⟨rfl, fun hlt => ?_⟩
  have hmod : (TokenizerActor.get_encoding
      encodings encoding).estimate_num_tokens_no_special_tokens_fast
      text flag % 2 ^ 32 =
      (TokenizerActor.get_encoding
        encodings encoding).estimate_num_tokens_no_special_tokens_fast
        text flag :=
    Nat.mod_eq_of_lt (lt_trans hlt (by norm_num))
  simp only [usizeToI32, hmod]
  rw [if_pos hlt]
  exact Int.ofNat_nonneg _

/-- C8 witness: on the toy table the fast estimate of the text hi with the
flag clear is 2, below 2 to the power 31, and the handler result 2 is
non-negative. -/
theorem C8_approx_deterministic_cast_witness :
    TokenizerActor.handle_message toyTable
        (.ApproximateNumTokens "hi" .Cl100k false) = .numTokens (.ok 2) ∧
    0 ≤ usizeToI32
      (toyEncoding.estimate_num_tokens_no_special_tokens_fast "hi" false) := by
  obtain ⟨h1, h2⟩ :=
    C8_approx_deterministic_cast toyTable "hi" .Cl100k false
  exact ⟨h1.trans (by rfl), h2 (by decide)⟩

/-- C10: token counts cross the interface as the usize length cast to i32:
the exact-count handler returns the i32 cast of the encode result length,
the asynchronous and synchronous approximate-count paths return the i32
cast of the fast estimate, the cast is exact below 2 to the power 31, and
for larger values it is reduction modulo 2 to the power 32 reinterpreted as
signed, which is negative whenever the reduced value is at least 2 to the
power 31. -/
theorem C10_counts_cross_as_truncated_i32 (encodings : Encodings)
    (text : String) (encoding : SupportedEncoding) (h : SpecialTokenHandling)
    (flag : Bool) (t : List Nat)
    (henc : (TokenizerActor.get_encoding encodings encoding).encode text h
      = .ok t) :
    TokenizerActor.handle_message encodings (.ExactNumTokens text encoding h)
      = .numTokens (.ok (usizeToI32 t.length)) ∧
    TokenizerActor.handle_message encodings
        (.ApproximateNumTokens text encoding flag) =
      .numTokens (.ok (usizeToI32
        ((TokenizerActor.get_encoding
          encodings encoding).estimate_num_tokens_no_special_tokens_fast
          text flag))) ∧
    SyncTokenizer.approx_num_tokens { encodings := encodings } text encoding
      = .ok (usizeToI32
        ((SyncTokenizer.get_encoding { encodings := encodings }
          encoding).estimate_num_tokens_no_special_tokens_fast text false)) ∧
    (∀ n : Nat, n < 2 ^ 31 → usizeToI32 n = n) ∧
    (∀ n : Nat, 2 ^ 31 ≤ n % 2 ^ 32 →
      usizeToI32 n = ((n % 2 ^ 32 : Nat) : Int) - 2 ^ 32 ∧ usizeToI32 n < 0)
    := by
  refine ⟨by simp [TokenizerActor.handle_message, henc], rfl, rfl,
    fun n hn => ?_, fun n hge => ?_⟩
  · have hmod : n % 2 ^ 32 = n :=
      Nat.mod_eq_of_lt (lt_trans hn (by norm_num))
    simp only [usizeToI32, hmod]
    rw [if_pos hn]
  · have hlt : n % 2 ^ 32 < 2 ^ 32 := Nat.mod_lt n (by norm_num)
    have hcond : ¬ n % 2 ^ 32 < 2 ^ 31 := not_lt.mpr hge
    refine ⟨by rw [usizeToI32, if_neg hcond], ?_⟩
    rw [usizeToI32, if_neg hcond]
    have : ((n % 2 ^ 32 : Nat) : Int) < 2 ^ 32 := by exact_mod_cast hlt
    omega

/-- C10 witness: on the toy table the exact count of hi is its true length
2; the cast is the identity at 5; at 2 to the power 31 the cast value is
the negative minus 2 to the power 31. -/
theorem C10_counts_cross_as_truncated_i32_witness :
    TokenizerActor.handle_message toyTable
        (.ExactNumTokens "hi" .Cl100k noSpecialsHandling) =
      .numTokens (.ok 2) ∧
    usizeToI32 5 = 5 ∧
    usizeToI32 (2 ^ 31) = -(2 ^ 31) ∧
    usizeToI32 (2 ^ 31) < 0 := by
  obtain ⟨h1, -, -, h4, h5⟩ :=
    C10_counts_cross_as_truncated_i32 toyTable "hi" .Cl100k
      noSpecialsHandling false (List.replicate "hi".length 0) rfl
  obtain ⟨ha, hb⟩ := h5 (2 ^ 31) (by norm_num)
  exact ⟨h1.trans (by rfl), h4 5 (by norm_num), ha.trans (by norm_num), hb⟩

/-- An EncodingFactory all of whose builds fail, standing for malformed
vocabulary data. -/
def failingFactory : EncodingFactory where
  cl100k_im := .error "bad vocabulary"
  llama3 := .error "bad vocabulary"
  o200k_im := .error "bad vocabulary"
  codestral := .error "bad vocabulary"

/-- C1 counterexample: when the one-time construction fails, the lazy slot
does cache the error, but SyncTokenizer.new and Tokenizer.new unwrap the
cached result and panic (none) instead of returning the replayed error
value, so a consumer does not observe the failure as a returned error. -/
theorem C1_construction_failure_counterexample :
    buildEncodings failingFactory = .error "bad vocabulary" ∧
    (lazyForce (fun _ => buildEncodings failingFactory) none).1 =
      .error "bad vocabulary" ∧
    (lazyForce (fun _ => buildEncodings failingFactory) none).2 =
      some (.error "bad vocabulary") ∧
    SyncTokenizer.new
      (lazyForce (fun _ => buildEncodings failingFactory) none).1 = none ∧
    Tokenizer.new
      (lazyForce (fun _ => buildEncodings failingFactory) none).1 = none :=
  ⟨rfl, rfl, rfl, rfl, rfl⟩

/-- C1 amended: the first force of the ENCODINGS slot stores the one-time
construction result, failure included; every later force returns the stored
value unchanged regardless of the initializer, so a failure is replayed
identically and construction is never retried; but when the stored result
is an error, Tokenizer.new and SyncTokenizer.new panic on their unwrap of
it rather than returning the error. -/
theorem C1_failure_cached_but_unwrap_panics (factory : EncodingFactory)
    (slot : Option (Except String Encodings)) (e : String) :
    lazyForce (fun _ => buildEncodings factory) none =
      (buildEncodings factory, some (buildEncodings factory)) ∧
    (∀ (laterInit : Unit → Except String Encodings) v, slot = some v →
      lazyForce laterInit slot = (v, some v)) ∧
    (buildEncodings factory = .error e →
      Tokenizer.new (buildEncodings factory) = none ∧
      SyncTokenizer.new (buildEncodings factory) = none) := by
  refine ⟨rfl, fun laterInit v hv => by rw [hv]; rfl, fun he => ?_⟩
  exact ⟨by simp [Tokenizer.new, resultUnwrap, he],
    by simp [SyncTokenizer.new, resultUnwrap, he]⟩

/-- C1 witness: for the all-failing factory, a later force of the populated
slot replays the stored error unchanged, and both constructors panic
(none) on the cached construction failure. -/
theorem C1_failure_cached_but_unwrap_panics_witness :
    lazyForce (fun _ => buildEncodings failingFactory)
        (some (Except.error "bad vocabulary")) =
      (.error "bad vocabulary", some (.error "bad vocabulary")) ∧
    Tokenizer.new (buildEncodings failingFactory) = none ∧
    SyncTokenizer.new (buildEncodings failingFactory) = none := by
  obtain ⟨-, h2, h3⟩ :=
    C1_failure_cached_but_unwrap_panics failingFactory
      (some (.error "bad vocabulary")) "bad vocabulary"
  obtain ⟨ha, hb⟩ := h3 rfl
  exact ⟨h2 _ _ rfl, ha, hb⟩

end TiktokenNode
